import Mathlib

/-
Verification of the cooperative scheduling and timing core of the
Michael-Brodsky/Arduino repository: the `Timer` elapsed-time tracker
(src/libraries/Timers/Timer.cpp), the `TaskScheduler` polling dispatcher
(src/libraries/utilities/TaskScheduler/TaskScheduler.cpp), the `Sequencer`
chronological command executor
(src/libraries/components/Sequencer/Sequencer.cpp), and the
`RotaryActuator`/`SweepServo` state machine
(src/libraries/components/RotaryActuator/).

Clock readings (`msecs_t` = 32-bit `unsigned long`) are modelled as natural
numbers reduced modulo 2^32; every unsigned subtraction in the C++ source is
modelled by `sub32`, so wraparound behaves exactly as on the target. Each
public operation that reads `millis()` receives the current clock reading
`now` as an explicit argument; `millis()` is assumed constant within one
operation (the cooperative, non-preemptive model of the source). Opaque
`ICommand` executions, client callback invocations and servo pulse writes
are recorded in observation logs rather than performed.
-/

set_option maxRecDepth 100000

namespace Arduino

/-- Modulus of the 32-bit unsigned `msecs_t` type. -/
def W : Nat := 4294967296

/-- Wrapping 32-bit unsigned subtraction a - b (for b < W). -/
def sub32 (a b : Nat) : Nat := (a + W - b) % W

/-- Model of the `Timer` class of src/libraries/Timers/Timer.cpp: fields
`interval_`, `begin_`, `end_`, `active_`. -/
structure Timer where
  interval : Nat
  begin_ : Nat
  end_ : Nat
  active_ : Bool
deriving DecidableEq, Repr

/-- Timer::active(). -/
def Timer.active (t : Timer) : Bool := t.active_

/-- Timer::elapsed(): `(active() ? millis() : end_) - begin_`. -/
def Timer.elapsed (t : Timer) (now : Nat) : Nat :=
  sub32 (if t.active_ then now else t.end_) t.begin_

/-- Timer::reset(): `begin_ = end_ = millis()`. -/
def Timer.reset (t : Timer) (now : Nat) : Timer :=
  { t with begin_ := now, end_ := now }

/-- Timer::interval(msecs_t): `reset(); interval_ = interval`. -/
def Timer.intervalSet (t : Timer) (i : Nat) (now : Nat) : Timer :=
  { t.reset now with interval := i }

/-- Timer::stop(): if active, freeze at `end_ = millis()` and clear active. -/
def Timer.stop (t : Timer) (now : Nat) : Timer :=
  if t.active_ then { t with end_ := now, active_ := false } else t

/-- Timer::resume(): if not active, `begin_ = millis() - elapsed()` and set
active. -/
def Timer.resume (t : Timer) (now : Nat) : Timer :=
  if t.active_ then t
  else { t with begin_ := sub32 now (t.elapsed now), active_ := true }

/-- Timer::start() (no-argument overload): if not active, `reset(); resume()`. -/
def Timer.start (t : Timer) (now : Nat) : Timer :=
  if t.active_ then t else (t.reset now).resume now

/-- Timer::expired(): `active() && (interval()) && !(elapsed() < interval())`. -/
def Timer.expired (t : Timer) (now : Nat) : Bool :=
  t.active_ && (t.interval != 0) && !(decide (t.elapsed now < t.interval))

/-- Task states of TaskScheduler::Task::State
(src/libraries/utilities/TaskScheduler/TaskScheduler.h). -/
inductive TaskState where
  | Idle
  | Active
deriving DecidableEq, BEq, Repr

/-- Model of a TaskScheduler::Task record: the opaque `ICommand*` is replaced
by a command identifier that is appended to the firing log when executed. -/
structure Task where
  command_ : Nat
  interval_ : Nat
  last_ : Nat
  state_ : TaskState
deriving DecidableEq, Repr

namespace TaskScheduler

/-- TaskScheduler::scheduled(task):
`!(state_ == Idle || millis() - last_ < interval_)`. -/
def scheduled (now : Nat) (t : Task) : Bool :=
  !(decide (t.state_ = TaskState.Idle) || decide (sub32 now t.last_ < t.interval_))

/-- TaskScheduler::tick(): walk the task collection in order; for each task,
if scheduled, set `last_ = millis()` and execute its command. Returns the
updated collection and the ordered log of executed command identifiers. -/
def tick (now : Nat) : List Task → List Task × List Nat
  | [] => ([], [])
  | t :: ts =>
    let rest := tick now ts
    if scheduled now t then ({ t with last_ := now } :: rest.1, t.command_ :: rest.2)
    else (t :: rest.1, rest.2)

end TaskScheduler

/-- Sequencer::Event::State (src/libraries/components/Sequencer/Sequencer.h). -/
inductive EvState where
  | Begin
  | End
deriving DecidableEq, Repr

/-- Model of a Sequencer::Event: the human-readable name is irrelevant to the
scheduling core; the nullable `ICommand*` is modelled by `hasCommand`. -/
structure SeqEvent where
  duration : Nat
  hasCommand : Bool
deriving DecidableEq, Repr

/-- Observable effects of Sequencer operations: execution of the command of
the event at a given position, or a client-callback invocation with a given
event position and state. -/
inductive Obs where
  | cmd (i : Nat)
  | cb (i : Nat) (s : EvState)
deriving DecidableEq, Repr

/-- Sequencer::Status. -/
inductive Status where
  | Idle
  | Active
  | Done
deriving DecidableEq, Repr

/-- Model of the Sequencer class: the iterator `current_` into the externally
owned event collection becomes the index `cursor`; the nullable client
callback pointer becomes `hasCb`. -/
structure Sequencer where
  events : List SeqEvent
  cursor : Nat
  hasCb : Bool
  wrap_ : Bool
  done_ : Bool
  exec_ : Bool
  event_timer_ : Timer
deriving DecidableEq, Repr

namespace Sequencer

/-- Event at the cursor (a zero-length collection is caller UB per the spec;
out-of-range access is modelled by a default event). -/
def curEvent (s : Sequencer) : SeqEvent :=
  s.events.getD s.cursor { duration := 0, hasCommand := false }

/-- Sequencer::callback(const_iterator, Event::State): invokes the client
callback if one is registered. -/
def cbLog (s : Sequencer) (i : Nat) (st : EvState) : List Obs :=
  if s.hasCb then [Obs.cb i st] else []

/-- Sequencer::status(): Active if the timer is running, else Done if the
done flag is set, else Idle. -/
def status (s : Sequencer) : Status :=
  if s.event_timer_.active_ then Status.Active
  else if s.done_ then Status.Done else Status.Idle

/-- Sequencer::begin(): arm the timer with the current event's duration
(which resets it), execute the event's command if non-null, then fire the
Begin callback. -/
def seqBegin (s : Sequencer) (now : Nat) : Sequencer × List Obs :=
  let ev := s.curEvent
  ({ s with event_timer_ := s.event_timer_.intervalSet ev.duration now },
   (if ev.hasCommand then [Obs.cmd s.cursor] else []) ++ s.cbLog s.cursor EvState.Begin)

/-- Sequencer::rewind(): cursor to the first event, clear the done flag. -/
def rewind (s : Sequencer) : Sequencer :=
  { s with cursor := 0, done_ := false }

/-- Sequencer::start(): if not Active, rewind, begin the first event and
start the timer. -/
def start (s : Sequencer) (now : Nat) : Sequencer × List Obs :=
  if s.status ≠ Status.Active then
    let r := (s.rewind).seqBegin now
    ({ r.1 with event_timer_ := r.1.event_timer_.start now }, r.2)
  else (s, [])

/-- Sequencer::stop(): stop the event timer only. -/
def stop (s : Sequencer) (now : Nat) : Sequencer :=
  { s with event_timer_ := s.event_timer_.stop now }

/-- Sequencer::reset(): rewind; if Active, reset the timer and begin the
first event again; otherwise set the timer interval to 0 as the
reset-sentinel. -/
def reset (s : Sequencer) (now : Nat) : Sequencer × List Obs :=
  let s1 := s.rewind
  if s1.status = Status.Active then
    ({ s1 with event_timer_ := s1.event_timer_.reset now }).seqBegin now
  else ({ s1 with event_timer_ := s1.event_timer_.intervalSet 0 now }, [])

/-- Sequencer::resume(): only from Idle; if the reset-sentinel
(interval == 0) is set, behave like start(); otherwise begin the current
event first when the exec flag is set (clearing it), then resume the timer. -/
def resume (s : Sequencer) (now : Nat) : Sequencer × List Obs :=
  if s.status = Status.Idle then
    if s.event_timer_.interval = 0 then s.start now
    else
      let r := if s.exec_ then
          (let b := s.seqBegin now; ({ b.1 with exec_ := false }, b.2))
        else (s, [])
      ({ r.1 with event_timer_ := r.1.event_timer_.resume now }, r.2)
  else (s, [])

/-- Sequencer::next(): advance the cursor by one, wrapping at the end; set
the exec flag; re-arm and reset the timer with the new event's duration. -/
def next (s : Sequencer) (now : Nat) : Sequencer :=
  let c := if s.cursor + 1 = s.events.length then 0 else s.cursor + 1
  let s1 := { s with cursor := c, exec_ := true }
  { s1 with event_timer_ := (s1.event_timer_.intervalSet s1.curEvent.duration now).reset now }

/-- Sequencer::prev(): move the cursor back by one, wrapping at the
beginning; set the exec flag; re-arm and reset the timer. -/
def prev (s : Sequencer) (now : Nat) : Sequencer :=
  let c := if s.cursor = 0 then s.events.length - 1 else s.cursor - 1
  let s1 := { s with cursor := c, exec_ := true }
  { s1 with event_timer_ := (s1.event_timer_.intervalSet s1.curEvent.duration now).reset now }

/-- Sequencer::index(): `static_cast<uint8_t>(distance(begin, current) + 1)`,
i.e. the one-based cursor position truncated to 8 bits. -/
def index (s : Sequencer) : Nat :=
  (s.cursor + 1) % 256

/-- Sequencer::advance(): increment the cursor; at the end of the collection
either wrap to the first event or (non-wrap) stop the timer, park the cursor
on the last valid event, set the done flag and fire that event's End
callback. -/
def advance (s : Sequencer) (now : Nat) : Sequencer × List Obs :=
  if s.cursor + 1 = s.events.length then
    if s.wrap_ then ({ s with cursor := 0 }, [])
    else
      let s1 := { s with
        event_timer_ := s.event_timer_.stop now,
        cursor := s.events.length - 1,
        done_ := true }
      (s1, s1.cbLog (s.events.length - 1) EvState.End)
  else ({ s with cursor := s.cursor + 1 }, [])

/-- Sequencer::end(): fire the current event's End callback. -/
def endEvent (s : Sequencer) : List Obs :=
  s.cbLog s.cursor EvState.End

/-- Sequencer::tick(): if the event timer expired, end the current event,
advance, and if still Active begin the new current event. -/
def tick (s : Sequencer) (now : Nat) : Sequencer × List Obs :=
  if s.event_timer_.expired now then
    let l1 := s.endEvent
    let r2 := s.advance now
    if r2.1.status = Status.Active then
      let r3 := r2.1.seqBegin now
      (r3.1, l1 ++ r2.2 ++ r3.2)
    else (r2.1, l1 ++ r2.2)
  else (s, [])

end Sequencer

/-- Two-event sequence used as concrete input: both events have 100 ms
durations and non-null commands, a client callback is registered, wrap is
off. -/
def seqTwo : Sequencer :=
  { events := [{ duration := 100, hasCommand := true },
               { duration := 100, hasCommand := true }],
    cursor := 0, hasCb := true, wrap_ := false, done_ := false,
    exec_ := false,
    event_timer_ := { interval := 0, begin_ := 0, end_ := 0, active_ := false } }

/-- History for the C1 counterexample: start() at clock 0, stop() at 30,
next() at 30. The Sequencer is then Idle, its timer interval is the second
event's non-zero duration, and the exec flag is set. -/
def seqAfterNext : Sequencer :=
  (((seqTwo.start 0).1).stop 30).next 30

/-- Sequencer over a 256-event collection with the cursor on the last
event (zero-based position 255). -/
def seq256 : Sequencer :=
  { events := List.replicate 256 { duration := 1, hasCommand := false },
    cursor := 255, hasCb := false, wrap_ := false, done_ := false,
    exec_ := false,
    event_timer_ := { interval := 0, begin_ := 0, end_ := 0, active_ := false } }

/-- `servo_types::InvalidAngle` (servo_traits.h): UINT16_MAX. -/
def InvalidAngle : Nat := 65535

/-- `servo_types::InvalidStep` (servo_traits.h): UINT32_MAX. -/
def InvalidStep : Nat := 4294967295

/-- Truncating cast of a C++ `long` value to `uint16_t`. -/
def toU16 (x : Int) : Nat := (x.emod 65536).toNat

/-- Truncating cast of a C++ `long` value to `uint32_t`. -/
def toU32 (x : Int) : Nat := (x.emod 4294967296).toNat

/-- The Arduino `map(x, in_min, in_max, out_min, out_max)` function:
`(x - in_min) * (out_max - out_min) / (in_max - in_min) + out_min` in
C++ `long` arithmetic (truncating division). -/
def amap (x inMin inMax outMin outMax : Int) : Int :=
  Int.tdiv ((x - inMin) * (outMax - outMin)) (inMax - inMin) + outMin

/-- SweepServo::angleToStep for the `hiwonder_20` traits of
src/libraries/interfaces/servos.h (min_pulse_width 544, max_pulse_width
2574, max_control_angle 180): `map(angle, 0, 180, 544, 2574)` cast to
step_t. -/
def angleToStep (a : Nat) : Nat :=
  toU32 (amap a 0 180 544 2574)

/-- SweepServo::stepToAngle for the `hiwonder_20` traits:
`map(step + 1U, 544, 2574, 0, 180)` cast to angle_t (step + 1U wraps in
uint32 first). -/
def stepToAngle (st : Nat) : Nat :=
  toU16 (amap (((st + 1) % 4294967296 : Nat) : Int) 544 2574 0 180)

/-- Model of the SweepServo template state
(src/libraries/components/RotaryActuator/SweepServo.h) instantiated at the
`hiwonder_20` traits: fields `current_step_`, `final_step_`, `step_dir_`,
`step_size_`, `steps_remaining_`. -/
structure SweepServo where
  current_step_ : Nat
  final_step_ : Nat
  step_dir_ : Int
  step_size_ : Nat
  steps_remaining_ : Nat
deriving DecidableEq, Repr

namespace SweepServo

/-- Models the private predicate of SweepServo that checks
`current_step_ != InvalidStep` (whether initialize() succeeded). -/
def inited (sv : SweepServo) : Bool :=
  sv.current_step_ != InvalidStep

/-- SweepServo::clock(): if not yet at the final step, take one step of
`step_dir_` (or snap to the final step when no whole steps remain) and write
the new pulse width to the servo; the written pulse widths are logged. -/
def clock (sv : SweepServo) : SweepServo × List Nat :=
  if sv.current_step_ ≠ sv.final_step_ then
    if sv.steps_remaining_ ≠ 0 then
      let c := toU32 ((sv.current_step_ : Int) + sv.step_dir_)
      ({ sv with steps_remaining_ := sv.steps_remaining_ - 1, current_step_ := c }, [c])
    else ({ sv with current_step_ := sv.final_step_ }, [sv.final_step_])
  else (sv, [])

/-- SweepServo::beginSweep(to): compute the absolute pulse-width difference,
the step direction and the whole-step count, record the target, and take the
first clock() step immediately. -/
def beginSweep (sv : SweepServo) (tgt : Nat) : SweepServo × List Nat :=
  let diff : Nat := ((sv.current_step_ : Int) - (tgt : Int)).natAbs
  let dr : Int := if tgt < sv.current_step_ then -(sv.step_size_ : Int) else (sv.step_size_ : Int)
  let sv1 := { sv with
    step_dir_ := dr,
    steps_remaining_ := diff / sv.step_size_,
    final_step_ := tgt }
  sv1.clock

/-- SweepServo::sweep(angle): if initialized, begin a sweep towards
`angleToStep(angle)`; return `steps_remaining_` as read after the call. -/
def sweepTo (sv : SweepServo) (a : Nat) : SweepServo × List Nat × Nat :=
  if sv.inited then
    let r := sv.beginSweep (angleToStep a)
    (r.1, r.2, r.1.steps_remaining_)
  else (sv, [], sv.steps_remaining_)

/-- SweepServo::sweep() const: current position as an angle, or InvalidAngle
when uninitialized. -/
def sweepRead (sv : SweepServo) : Nat :=
  if sv.inited then stepToAngle sv.current_step_ else InvalidAngle

end SweepServo

/-- RotaryActuator::State
(src/libraries/components/RotaryActuator/RotaryActuator.h). -/
inductive RState where
  | Init
  | Idle
  | Active
  | Error
deriving DecidableEq, Repr

/-- Model of the RotaryActuator class: the `IServo&` reference becomes an
owned SweepServo state; the nullable callback pointer becomes `hasCb`.
Callback invocations are logged as the states passed to them. -/
structure RotaryActuator where
  servo_ : SweepServo
  cmd_angle_ : Nat
  hasCb : Bool
  state_ : RState
deriving DecidableEq, Repr

namespace RotaryActuator

/-- RotaryActuator::state(State): on a change, record the new state and
invoke the callback (once per transition) if one is registered. -/
def setState (r : RotaryActuator) (new : RState) : RotaryActuator × List RState :=
  if new ≠ r.state_ then
    ({ r with state_ := new }, if r.hasCb then [new] else [])
  else (r, [])

/-- RotaryActuator::position(angle_t): accepted only for a valid angle and
only from Idle; always invokes the sweep primitive (there is no same-angle
guard); transitions to Active only when the sweep reports a non-zero
remaining step count. Returns the new actuator, the callback log and the
servo write log. -/
def position (r : RotaryActuator) (a : Nat) : RotaryActuator × List RState × List Nat :=
  if a ≠ InvalidAngle ∧ r.state_ = RState.Idle then
    let sw := r.servo_.sweepTo a
    let r1 := { r with servo_ := sw.1, cmd_angle_ := a }
    if sw.2.2 ≠ 0 then
      let st := r1.setState RState.Active
      (st.1, st.2, sw.2.1)
    else (r1, [], sw.2.1)
  else (r, [], [])

/-- RotaryActuator::position() const: the servo's reported angle while Idle,
else InvalidAngle. -/
def positionRead (r : RotaryActuator) : Nat :=
  if r.state_ = RState.Idle then r.servo_.sweepRead else InvalidAngle

end RotaryActuator

/-- Concrete servo state for the C8 counterexample: the hardware reported
pulse width 1005 at initialization (a value not produced by angleToStep),
default step size 4, no sweep in progress. -/
def servoCE : SweepServo :=
  { current_step_ := 1005, final_step_ := 1005, step_dir_ := 0,
    step_size_ := 4, steps_remaining_ := 0 }

/-- Concrete actuator for the C8 counterexample: Idle with a registered
callback over `servoCE`. -/
def rotaryCE : RotaryActuator :=
  { servo_ := servoCE, cmd_angle_ := 0, hasCb := true, state_ := RState.Idle }

/-
Theorems.
-/

theorem sub32_lt (a b : Nat) : sub32 a b < W := by
  unfold sub32 W
  omega

theorem sub32_self (a : Nat) : sub32 a a = 0 := by
  unfold sub32
  simp

theorem sub32_zero (a : Nat) : sub32 a 0 = a % W := by
  unfold sub32 W
  omega

theorem sub32_cancel (n e : Nat) (he : e < W) : sub32 n (sub32 n e) = e := by
  unfold sub32 W at *
  omega

/-- C5: expired() returns true iff the timer is running, the interval is
non-zero and elapsed ≥ interval; in particular expired() is false whenever
elapsed < interval, and a timer with interval 0 never expires while running. -/
theorem timer_expired_iff (t : Timer) (now : Nat) :
    (t.expired now = true ↔
      (t.active_ = true ∧ t.interval ≠ 0 ∧ t.interval ≤ t.elapsed now)) ∧
    (t.elapsed now < t.interval → t.expired now = false) ∧
    (t.interval = 0 → t.expired now = false) := by
  refine ⟨?_, ?_, ?_⟩
  · simp [Timer.expired, not_lt, and_assoc]
  · intro h
    simp [Timer.expired, h]
  · intro h
    simp [Timer.expired, h]

/-- Witness for timer_expired_iff: a concrete zero-interval running timer is
never expired, however large the clock reading. -/
theorem timer_expired_iff_witness :
    Timer.expired { interval := 0, begin_ := 0, end_ := 0, active_ := true } 999999 = false :=
  (timer_expired_iff { interval := 0, begin_ := 0, end_ := 0, active_ := true } 999999).2.2 rfl

/-- C6: for a stopped Timer with frozen elapsed time E, resume() followed by
elapsed() at the same clock reading returns E, whereas start() followed by
elapsed() at the same clock reading returns 0. -/
theorem timer_resume_preserves_start_zeroes (t : Timer) (now : Nat)
    (h : t.active_ = false) :
    (t.resume now).elapsed now = t.elapsed now ∧
    (t.start now).elapsed now = 0 := by
  constructor
  · simp only [Timer.resume, h, if_false, Timer.elapsed, if_true]
    exact sub32_cancel now (sub32 t.end_ t.begin_) (sub32_lt _ _)
  · simp [Timer.start, Timer.reset, Timer.resume, Timer.elapsed, h, sub32_self, sub32_zero]
    unfold sub32 W
    omega

/-- Witness for timer_resume_preserves_start_zeroes at a concrete stopped
timer (frozen elapsed 20) and clock reading 50. -/
theorem timer_resume_preserves_start_zeroes_witness :
    (Timer.resume { interval := 100, begin_ := 10, end_ := 30, active_ := false } 50).elapsed 50 =
      Timer.elapsed { interval := 100, begin_ := 10, end_ := 30, active_ := false } 50 ∧
    (Timer.start { interval := 100, begin_ := 10, end_ := 30, active_ := false } 50).elapsed 50 = 0 :=
  timer_resume_preserves_start_zeroes
    { interval := 100, begin_ := 10, end_ := 30, active_ := false } 50 rfl

/-- C7: stopping a running Timer freezes elapsed(): every subsequent
elapsed() call returns the value elapsed had at the moment of the stop,
regardless of how far the clock reading advances. -/
theorem timer_stop_freezes (t : Timer) (now0 : Nat) (h : t.active_ = true) :
    ∀ now1 : Nat, (t.stop now0).elapsed now1 = t.elapsed now0 := by
  intro now1
  simp [Timer.stop, Timer.elapsed, h]

/-- Witness for timer_stop_freezes: a concrete running timer stopped at 70,
queried at clock reading 123456. -/
theorem timer_stop_freezes_witness :
    (Timer.stop { interval := 5, begin_ := 40, end_ := 0, active_ := true } 70).elapsed 123456 =
      Timer.elapsed { interval := 5, begin_ := 40, end_ := 0, active_ := true } 70 :=
  timer_stop_freezes { interval := 5, begin_ := 40, end_ := 0, active_ := true } 70 rfl 123456

theorem taskscheduler_tick_fst (now : Nat) (ts : List Task) :
    (TaskScheduler.tick now ts).1 =
      ts.map (fun t => if TaskScheduler.scheduled now t then { t with last_ := now } else t) := by
  induction ts with
  | nil => rfl
  | cons t ts ih =>
    by_cases h : TaskScheduler.scheduled now t <;> simp [TaskScheduler.tick, h, ih]

theorem taskscheduler_tick_snd (now : Nat) (ts : List Task) :
    (TaskScheduler.tick now ts).2 =
      (ts.filter (TaskScheduler.scheduled now)).map (fun t => t.command_) := by
  induction ts with
  | nil => rfl
  | cons t ts ih =>
    by_cases h : TaskScheduler.scheduled now t <;>
      simp [TaskScheduler.tick, h, ih, List.filter_cons]

/-- C3: within one TaskScheduler::tick() call each task is examined once in
collection order: the updated collection re-arms exactly the fired tasks
(setting `last_` to `now`), the firing log is the in-order sublist of tasks
whose check succeeded, a task fires iff its state is Active and
`now - last_ ≥ interval_` at the check, and (for distinct command
identifiers) each command executes at most once per tick regardless of how
many interval multiples have elapsed. -/
theorem taskscheduler_tick_correct (now : Nat) (ts : List Task) :
    ((TaskScheduler.tick now ts).1 =
      ts.map (fun t => if TaskScheduler.scheduled now t then { t with last_ := now } else t)) ∧
    ((TaskScheduler.tick now ts).2 =
      (ts.filter (TaskScheduler.scheduled now)).map (fun t => t.command_)) ∧
    (∀ t : Task, TaskScheduler.scheduled now t = true ↔
      (t.state_ = TaskState.Active ∧ t.interval_ ≤ sub32 now t.last_)) ∧
    ((ts.map (fun t => t.command_)).Nodup →
      ∀ c : Nat, ((TaskScheduler.tick now ts).2).count c ≤ 1) := by
  refine ⟨taskscheduler_tick_fst now ts, taskscheduler_tick_snd now ts, ?_, ?_⟩
  · intro t
    cases h : t.state_ <;>
      simp [TaskScheduler.scheduled, h, not_lt]
  · intro hnd c
    rw [taskscheduler_tick_snd now ts]
    have hsub : ((ts.filter (TaskScheduler.scheduled now)).map (fun t => t.command_)).Sublist
        (ts.map (fun t => t.command_)) :=
      (List.filter_sublist ts).map (fun t => t.command_)
    exact List.nodup_iff_count_le_one.mp (hnd.sublist hsub) c

/-- Witness for taskscheduler_tick_correct: two concrete overdue tasks with
distinct commands each fire at most once in a single tick. -/
theorem taskscheduler_tick_correct_witness :
    ((TaskScheduler.tick 1000
      [{ command_ := 7, interval_ := 10, last_ := 0, state_ := TaskState.Active },
       { command_ := 8, interval_ := 10, last_ := 0, state_ := TaskState.Active }]).2).count 7 ≤ 1 :=
  (taskscheduler_tick_correct 1000
      [{ command_ := 7, interval_ := 10, last_ := 0, state_ := TaskState.Active },
       { command_ := 8, interval_ := 10, last_ := 0, state_ := TaskState.Active }]).2.2.2
    (by decide) 7

theorem sequencer_status_idle_iff (s : Sequencer) :
    s.status = Status.Idle ↔ (s.event_timer_.active_ = false ∧ s.done_ = false) := by
  cases h1 : s.event_timer_.active_ <;> cases h2 : s.done_ <;>
    simp [Sequencer.status, h1, h2]

theorem timer_expired_active (t : Timer) (now : Nat) (h : t.expired now = true) :
    t.active_ = true := by
  simp only [Timer.expired, Bool.and_eq_true] at h
  exact h.1.1

/-- Full computation of tick() on the poll where the last event of a
non-wrapping sequence expires. -/
theorem sequencer_tick_last_nonwrap (s : Sequencer) (now : Nat)
    (hw : s.wrap_ = false) (hne : s.events ≠ [])
    (hc : s.cursor = s.events.length - 1)
    (hex : s.event_timer_.expired now = true) :
    s.tick now =
      ({ s with
          event_timer_ := { s.event_timer_ with end_ := now, active_ := false },
          cursor := s.events.length - 1,
          done_ := true },
       s.cbLog (s.events.length - 1) EvState.End ++
         s.cbLog (s.events.length - 1) EvState.End) := by
  have hact : s.event_timer_.active_ = true := timer_expired_active _ _ hex
  have hlen : 0 < s.events.length := List.length_pos.mpr hne
  have hc1 : s.cursor + 1 = s.events.length := by omega
  have hm1 : s.events.length - 1 + 1 = s.events.length := by omega
  simp [Sequencer.tick, hex, Sequencer.advance, hc1, hm1, hw,
    Sequencer.endEvent, hc, Sequencer.status, Timer.stop, hact, Sequencer.cbLog]

/-- C4: from Idle, reset() followed by resume() is observably and internally
identical to a single start(): same final Sequencer state and the same
ordered log of command executions and Begin-callback firings. -/
theorem sequencer_reset_resume_eq_start (s : Sequencer) (now1 now2 : Nat)
    (h : s.status = Status.Idle) :
    ((s.reset now1).1.resume now2).1 = (s.start now2).1 ∧
    (s.reset now1).2 ++ ((s.reset now1).1.resume now2).2 = (s.start now2).2 := by
  obtain ⟨h1, h2⟩ := (sequencer_status_idle_iff s).mp h
  constructor <;>
    simp [Sequencer.reset, Sequencer.resume, Sequencer.start, Sequencer.rewind,
      Sequencer.seqBegin, Sequencer.curEvent, Sequencer.cbLog, Sequencer.status,
      Timer.intervalSet, Timer.reset, Timer.start, Timer.resume, Timer.elapsed,
      h1, h2]

/-- Witness for sequencer_reset_resume_eq_start at a concrete two-event Idle
sequencer, with reset at clock 5 and resume/start at clock 9. -/
theorem sequencer_reset_resume_eq_start_witness :
    ((({ events := [{ duration := 100, hasCommand := true },
                    { duration := 200, hasCommand := false }],
         cursor := 1, hasCb := true, wrap_ := false, done_ := false,
         exec_ := false,
         event_timer_ := { interval := 100, begin_ := 0, end_ := 3, active_ := false } :
        Sequencer }).reset 5).1.resume 9).1 =
      (({ events := [{ duration := 100, hasCommand := true },
                     { duration := 200, hasCommand := false }],
          cursor := 1, hasCb := true, wrap_ := false, done_ := false,
          exec_ := false,
          event_timer_ := { interval := 100, begin_ := 0, end_ := 3, active_ := false } :
         Sequencer }).start 9).1 :=
  (sequencer_reset_resume_eq_start
    { events := [{ duration := 100, hasCommand := true },
                 { duration := 200, hasCommand := false }],
      cursor := 1, hasCb := true, wrap_ := false, done_ := false,
      exec_ := false,
      event_timer_ := { interval := 100, begin_ := 0, end_ := 3, active_ := false } }
    5 9 (by decide)).1

/-- C2: with wrap off, on the tick() call in which the last event expires the
last event's End callback is fired, the cursor is parked on the last valid
index, the done flag is set, the Timer is stopped, status() is Done, and
every subsequent tick() call leaves the state (cursor and status included)
unchanged and fires nothing. -/
theorem sequencer_nonwrap_termination (s : Sequencer) (now : Nat)
    (hw : s.wrap_ = false) (hne : s.events ≠ [])
    (hc : s.cursor = s.events.length - 1)
    (hcb : s.hasCb = true)
    (hex : s.event_timer_.expired now = true) :
    Obs.cb (s.events.length - 1) EvState.End ∈ (s.tick now).2 ∧
    (s.tick now).1.cursor = s.events.length - 1 ∧
    (s.tick now).1.done_ = true ∧
    (s.tick now).1.event_timer_.active_ = false ∧
    (s.tick now).1.status = Status.Done ∧
    (∀ now2 : Nat, (s.tick now).1.tick now2 = ((s.tick now).1, [])) := by
  rw [sequencer_tick_last_nonwrap s now hw hne hc hex]
  refine ⟨?_, rfl, rfl, rfl, ?_, ?_⟩
  · simp [Sequencer.cbLog, hcb]
  · simp [Sequencer.status]
  · intro now2
    simp [Sequencer.tick, Timer.expired]

/-- Witness for sequencer_nonwrap_termination: concrete two-event sequence,
cursor on the second event, timer running since clock 0, polled at clock
250. -/
theorem sequencer_nonwrap_termination_witness :
    (({ events := [{ duration := 100, hasCommand := true },
                   { duration := 100, hasCommand := true }],
        cursor := 1, hasCb := true, wrap_ := false, done_ := false,
        exec_ := false,
        event_timer_ := { interval := 100, begin_ := 150, end_ := 0, active_ := true } :
       Sequencer }).tick 250).1.status = Status.Done :=
  (sequencer_nonwrap_termination
    { events := [{ duration := 100, hasCommand := true },
                 { duration := 100, hasCommand := true }],
      cursor := 1, hasCb := true, wrap_ := false, done_ := false,
      exec_ := false,
      event_timer_ := { interval := 100, begin_ := 150, end_ := 0, active_ := true } }
    250 rfl (by decide) (by decide) rfl (by decide)).2.2.2.2.1

/-- C9: on the tick() in which the final event of a non-wrapping sequence
expires, the registered client callback is invoked exactly twice, both times
with the last event and State::End — once from Sequencer::end() and once
from the termination branch of Sequencer::advance(). -/
theorem sequencer_end_fired_twice (s : Sequencer) (now : Nat)
    (hw : s.wrap_ = false) (hne : s.events ≠ [])
    (hc : s.cursor = s.events.length - 1)
    (hcb : s.hasCb = true)
    (hex : s.event_timer_.expired now = true) :
    (s.tick now).2 =
      [Obs.cb (s.events.length - 1) EvState.End,
       Obs.cb (s.events.length - 1) EvState.End] := by
  rw [sequencer_tick_last_nonwrap s now hw hne hc hex]
  simp [Sequencer.cbLog, hcb]

/-- Witness for sequencer_end_fired_twice: the same concrete terminating poll
delivers exactly two End notifications for event index 1. -/
theorem sequencer_end_fired_twice_witness :
    (({ events := [{ duration := 100, hasCommand := true },
                   { duration := 100, hasCommand := true }],
        cursor := 1, hasCb := true, wrap_ := false, done_ := false,
        exec_ := false,
        event_timer_ := { interval := 100, begin_ := 100, end_ := 0, active_ := true } :
       Sequencer }).tick 230).2 =
      [Obs.cb 1 EvState.End, Obs.cb 1 EvState.End] :=
  sequencer_end_fired_twice
    { events := [{ duration := 100, hasCommand := true },
                 { duration := 100, hasCommand := true }],
      cursor := 1, hasCb := true, wrap_ := false, done_ := false,
      exec_ := false,
      event_timer_ := { interval := 100, begin_ := 100, end_ := 0, active_ := true } }
    230 rfl (by decide) (by decide) rfl (by decide)

/-- Counterexample to C1: after start(); stop(); next() the Sequencer is Idle
with a non-zero timer interval (the reset-sentinel is not set), yet
resume() executes the current event's command and fires its Begin callback,
because next() set the exec flag. -/
theorem sequencer_resume_fires_begin_after_next :
    seqAfterNext.status = Status.Idle ∧
    seqAfterNext.event_timer_.interval ≠ 0 ∧
    Obs.cb 1 EvState.Begin ∈ (seqAfterNext.resume 50).2 ∧
    Obs.cmd 1 ∈ (seqAfterNext.resume 50).2 := by
  decide

/-- C1 amended: resume() from Idle with a non-zero interval resumes the
Timer; when the exec flag is clear (no next()/prev() since the current event
last began) it preserves the elapsed time, fires nothing and leaves the
cursor alone; when the exec flag is set it first begins the current event
(executing its command and firing Begin) and clears the flag. -/
theorem sequencer_resume_amended (s : Sequencer) (now : Nat)
    (hIdle : s.status = Status.Idle)
    (hInt : s.event_timer_.interval ≠ 0) :
    (s.exec_ = false →
      (s.resume now).2 = [] ∧
      (s.resume now).1.event_timer_.elapsed now = s.event_timer_.elapsed now ∧
      (s.resume now).1.event_timer_.active_ = true ∧
      (s.resume now).1.cursor = s.cursor) ∧
    (s.exec_ = true →
      (s.resume now).2 = (s.seqBegin now).2 ∧
      (s.resume now).1.exec_ = false ∧
      (s.resume now).1.event_timer_.active_ = true) := by
  obtain ⟨h1, h2⟩ := (sequencer_status_idle_iff s).mp hIdle
  constructor
  · intro hx
    refine ⟨?_, ?_, ?_, ?_⟩
    · simp [Sequencer.resume, hIdle, hInt, hx]
    · simp [Sequencer.resume, hIdle, hInt, hx, Timer.resume, Timer.elapsed, h1]
      exact sub32_cancel now (sub32 s.event_timer_.end_ s.event_timer_.begin_)
        (sub32_lt _ _)
    · simp [Sequencer.resume, hIdle, hInt, hx, Timer.resume, h1]
    · simp [Sequencer.resume, hIdle, hInt, hx]
  · intro hx
    refine ⟨?_, ?_, ?_⟩ <;>
      simp [Sequencer.resume, hIdle, hInt, hx, Sequencer.seqBegin,
        Timer.resume, Timer.intervalSet, Timer.reset, h1]

/-- Witness for sequencer_resume_amended: a concrete Idle sequencer with a
clear exec flag resumes at clock 50 without firing anything. -/
theorem sequencer_resume_amended_witness :
    (({ events := [{ duration := 100, hasCommand := true },
                   { duration := 100, hasCommand := true }],
        cursor := 0, hasCb := true, wrap_ := false, done_ := false,
        exec_ := false,
        event_timer_ := { interval := 100, begin_ := 0, end_ := 30, active_ := false } :
       Sequencer }).resume 50).2 = [] :=
  ((sequencer_resume_amended
    { events := [{ duration := 100, hasCommand := true },
                 { duration := 100, hasCommand := true }],
      cursor := 0, hasCb := true, wrap_ := false, done_ := false,
      exec_ := false,
      event_timer_ := { interval := 100, begin_ := 0, end_ := 30, active_ := false } }
    50 (by decide) (by decide)).1 rfl).1

/-- Counterexample to C10: on a 256-event collection with the cursor on the
last event (zero-based position 255), index() returns 0 — not the one-based
position 256, and not the collection length. -/
theorem sequencer_index_truncates :
    seq256.cursor = 255 ∧
    seq256.events.length = 256 ∧
    seq256.index = 0 ∧
    seq256.index ≠ seq256.cursor + 1 := by
  constructor
  · rfl
  refine ⟨by simp [seq256], rfl, by decide⟩

/-- C10 amended: index() returns `(cursor + 1) mod 256`; whenever the
zero-based cursor position is below 255 (in particular for any collection of
at most 255 events) it equals cursor + 1, is non-zero, and equals the
collection length when the cursor is on the last event. -/
theorem sequencer_index_amended (s : Sequencer) (h : s.cursor < 255) :
    s.index = s.cursor + 1 ∧
    s.index ≠ 0 ∧
    (s.cursor + 1 = s.events.length → s.index = s.events.length) := by
  unfold Sequencer.index
  have hm : (s.cursor + 1) % 256 = s.cursor + 1 := Nat.mod_eq_of_lt (by omega)
  refine ⟨hm, by omega, fun hlen => by omega⟩

/-- Witness for sequencer_index_amended: the concrete two-event sequencer on
its last event reports index 2 = collection length. -/
theorem sequencer_index_amended_witness :
    Sequencer.index
      { events := [{ duration := 100, hasCommand := true },
                   { duration := 100, hasCommand := true }],
        cursor := 1, hasCb := true, wrap_ := false, done_ := false,
        exec_ := false,
        event_timer_ := { interval := 0, begin_ := 0, end_ := 0, active_ := false } } = 2 :=
  (sequencer_index_amended
    { events := [{ duration := 100, hasCommand := true },
                 { duration := 100, hasCommand := true }],
      cursor := 1, hasCb := true, wrap_ := false, done_ := false,
      exec_ := false,
      event_timer_ := { interval := 0, begin_ := 0, end_ := 0, active_ := false } }
    (by decide)).2.2 rfl

theorem stepToAngle_angleToStep (a : Nat) (h : a < 181) :
    stepToAngle (angleToStep a) = a := by
  revert h
  revert a
  decide

theorem angleToStep_small (a : Nat) (h : a < 181) : angleToStep a < 2575 := by
  revert h
  revert a
  decide

/-- Counterexample to C8: a reachable Idle actuator whose servo step is 1005
(as read from hardware at initialization) reports position 40; calling
position(40) — the current position — transitions the state to Active,
fires the client callback, and writes a new pulse width to the servo. -/
theorem rotary_position_same_angle_activates :
    rotaryCE.positionRead = 40 ∧
    (rotaryCE.position 40).1.state_ = RState.Active ∧
    (rotaryCE.position 40).2.1 = [RState.Active] ∧
    (rotaryCE.position 40).2.2 ≠ [] := by
  decide

/-- C8 amended: position(a) from Idle always invokes the sweep primitive
(there is no same-angle guard); a transition to Active occurs only from
Idle; and in the steady state where the servo's step is exactly
`angleToStep` of some commanded angle (as after a completed commanded
sweep), calling position() with the current position causes no state
transition, no callback and no servo write. In general (arbitrary hardware
step values) a same-position call may transition to Active, as the
counterexample shows. -/
theorem rotary_position_same_angle_amended (r : RotaryActuator) (a0 : Nat)
    (hIdle : r.state_ = RState.Idle) (ha : a0 ≤ 180)
    (hcur : r.servo_.current_step_ = angleToStep a0) :
    r.positionRead = a0 ∧
    (r.position r.positionRead).1.state_ = RState.Idle ∧
    (r.position r.positionRead).2.1 = [] ∧
    (r.position r.positionRead).2.2 = [] ∧
    (∀ (q : RotaryActuator) (b : Nat), q.state_ ≠ RState.Idle →
      q.position b = (q, [], [])) := by
  have hsmall : angleToStep a0 < 2575 := angleToStep_small a0 (by omega)
  have hinit : r.servo_.inited = true := by
    simp [SweepServo.inited, hcur, InvalidStep]
    omega
  have hread : r.positionRead = a0 := by
    simp [RotaryActuator.positionRead, hIdle, SweepServo.sweepRead, hinit, hcur,
      stepToAngle_angleToStep a0 (by omega)]
  have hvalid : a0 ≠ InvalidAngle := by
    unfold InvalidAngle
    omega
  refine ⟨hread, ?_, ?_, ?_, ?_⟩
  · rw [hread]
    simp [RotaryActuator.position, hvalid, hIdle, SweepServo.sweepTo, hinit,
      SweepServo.beginSweep, hcur, SweepServo.clock]
  · rw [hread]
    simp [RotaryActuator.position, hvalid, hIdle, SweepServo.sweepTo, hinit,
      SweepServo.beginSweep, hcur, SweepServo.clock]
  · rw [hread]
    simp [RotaryActuator.position, hvalid, hIdle, SweepServo.sweepTo, hinit,
      SweepServo.beginSweep, hcur, SweepServo.clock]
  · intro q b hq
    simp [RotaryActuator.position, hq]

/-- Witness for rotary_position_same_angle_amended: a servo parked exactly at
`angleToStep 40 = 995` stays Idle when commanded to its own position 40. -/
theorem rotary_position_same_angle_amended_witness :
    RotaryActuator.positionRead
      { servo_ := { current_step_ := 995, final_step_ := 995, step_dir_ := 0,
                    step_size_ := 4, steps_remaining_ := 0 },
        cmd_angle_ := 40, hasCb := true, state_ := RState.Idle } = 40 :=
  (rotary_position_same_angle_amended
    { servo_ := { current_step_ := 995, final_step_ := 995, step_dir_ := 0,
                  step_size_ := 4, steps_remaining_ := 0 },
      cmd_angle_ := 40, hasCb := true, state_ := RState.Idle }
    40 rfl (by decide) (by decide)).1

end Arduino
